import Mathlib

/-
Verification of the execution-orchestration and response-demultiplexing
subsystem of the python-playground browser client.

The definitions below are a shallow embedding of the relevant parts of
src/frontend/src/components/PythonLab.tsx (component PythonLab) and of the
api wrapper (runCode).  Strings are modelled as Lean String (internally
List Char); the JavaScript regular expressions of the source are modelled
by direct scanners with the same matching discipline (leftmost match,
greedy digit runs, lazy payload quantifiers, global non-overlapping scan).
Asynchronous handlers are split at their await point into a pre-dispatch
function (state before the request, plus the request that is sent, if any)
and a completion function (state update applied to the arriving outcome).
Wall-clock time and the random memory figure of the source are omitted:
no claim mentions them.
-/

namespace PythonLab

/-- Match a literal character list at the front of the input; on success
return the rest of the input.  Models matching a literal inside a
JavaScript regular expression. -/
def matchLit : List Char → List Char → Option (List Char)
  | [], rest => some rest
  | _ :: _, [] => none
  | p :: ps, c :: cs => if p = c then matchLit ps cs else none

/-- Lazy one-or-more wildcard followed by a literal end marker: the
shortest non-empty payload after which the end marker matches, as in the
regex fragment (.+?)END.  When dotall is false the wildcard refuses a
newline, as for a dot without the s flag. -/
def lazyUpTo (dotall : Bool) (endMark : List Char) : List Char → Option (List Char × List Char)
  | [] => none
  | c :: cs =>
    if dotall = false ∧ c = '\n' then none
    else
      match matchLit endMark cs with
      | some rest => some ([c], rest)
      | none =>
        match lazyUpTo dotall endMark cs with
        | some pr => some (c :: pr.1, pr.2)
        | none => none

/-- Lazy zero-or-more wildcard (matching any character, newline included)
followed by a literal end marker, as in the regex fragment
([backslash-s backslash-S]*?)END.  Returns the rest after the end marker. -/
def lazyStarUpTo (endMark : List Char) : List Char → Option (List Char)
  | [] => matchLit endMark []
  | c :: cs =>
    match matchLit endMark (c :: cs) with
    | some rest => some rest
    | none => lazyStarUpTo endMark cs

def graphBegin : List Char := "__GRAPH_".data
def graphEnd : List Char := "__GRAPH_END__".data
def graphsBlockBegin : List Char := "__GRAPHS_START__".data
def graphsBlockEnd : List Char := "__GRAPHS_END__".data

/-- Try to match the sentinel wrapper pattern of PythonLab.tsx line 151,
regex __GRAPH_(d+)__(.+?)__GRAPH_END__, at the start of the input.
On success return (full matched span, payload group, rest of input).
The digit run is greedy and must be non-empty; the payload is lazy and
non-empty; dotall tells whether the payload wildcard may cross newlines
(the outer scan of line 151 has the s flag, the inner extraction of line
155 does not). -/
def matchWrapperAt (dotall : Bool) (cs : List Char) : Option (List Char × List Char × List Char) :=
  match matchLit graphBegin cs with
  | none => none
  | some r1 =>
    let ds := r1.takeWhile Char.isDigit
    let r2 := r1.dropWhile Char.isDigit
    if ds.isEmpty then none
    else
      match matchLit "__".data r2 with
      | none => none
      | some r3 =>
        match lazyUpTo dotall graphEnd r3 with
        | none => none
        | some pr =>
          some (graphBegin ++ ds ++ "__".data ++ pr.1 ++ graphEnd, pr.1, pr.2)

/-- Global scan for all non-overlapping wrapper matches, left to right,
as formattedOutput.match of PythonLab.tsx line 151 with the g flag;
returns the full matched spans.  The fuel argument only bounds the
recursion; length of the input plus one is always enough, because every
step consumes at least one character. -/
def scanSpansAux : Nat → List Char → List (List Char)
  | 0, _ => []
  | _, [] => []
  | fuel + 1, c :: cs =>
    match matchWrapperAt true (c :: cs) with
    | some (span, _, rest) => span :: scanSpansAux fuel rest
    | none => scanSpansAux fuel cs

/-- All full matched spans of the wrapper regex in a string (graphMatches
of PythonLab.tsx line 151). -/
def scanSpans (s : String) : List (List Char) :=
  scanSpansAux (s.data.length + 1) s.data

/-- First wrapper match anywhere in the input, payload group only, with
the payload wildcard refusing newlines: models the inner extraction
match of PythonLab.tsx line 155, whose regex has no s flag. -/
def findWrapperPayload : List Char → Option (List Char)
  | [] => none
  | c :: cs =>
    match matchWrapperAt false (c :: cs) with
    | some (_, payload, _) => some payload
    | none => findWrapperPayload cs

/-- Remove every non-overlapping lazy block
__GRAPHS_START__([backslash-s backslash-S]*?)__GRAPHS_END__ from the
input, as the replace call of PythonLab.tsx line 164.  Note these block
sentinels differ from the wrapper sentinels matched by scanSpans.  Fuel
as in scanSpansAux. -/
def removeBlocksAux : Nat → List Char → List Char
  | 0, cs => cs
  | _, [] => []
  | fuel + 1, c :: cs =>
    match matchLit graphsBlockBegin (c :: cs) with
    | some r1 =>
      match lazyStarUpTo graphsBlockEnd r1 with
      | some rest => removeBlocksAux fuel rest
      | none => c :: removeBlocksAux fuel cs
    | none => c :: removeBlocksAux fuel cs

def removeGraphsBlocks (s : String) : String :=
  String.mk (removeBlocksAux (s.data.length + 1) s.data)

/-- Whitespace for the JavaScript trim method (ASCII white space, NBSP
and the BOM; the claims only ever exercise spaces and newlines). -/
def jsWhitespace (c : Char) : Bool :=
  c = ' ' ∨ c = '\t' ∨ c = '\n' ∨ c = '\r' ∨ c = '\x0b' ∨ c = '\x0c' ∨ c = '\xa0' ∨ c.val = 0xFEFF

/-- The JavaScript string trim method: drop leading and trailing
whitespace. -/
def jsTrim (s : String) : String :=
  String.mk (((s.data.dropWhile jsWhitespace).reverse.dropWhile jsWhitespace).reverse)

/-- Count the non-overlapping occurrences of a literal token, as the
JavaScript global match against an escaped literal regex (lines 124 and
240, token input open-paren).  Fuel as in scanSpansAux. -/
def countTokenAux (needle : List Char) : Nat → List Char → Nat
  | 0, _ => 0
  | _, [] => 0
  | fuel + 1, c :: cs =>
    match matchLit needle (c :: cs) with
    | some rest => 1 + countTokenAux needle fuel rest
    | none => countTokenAux needle fuel cs

/-- Input requirement detector: the number of interactive-input call
sites, counted as literal occurrences of the token input followed by an
opening parenthesis (PythonLab.tsx lines 124 and 240). -/
def countInputCalls (code : String) : Nat :=
  countTokenAux "input(".data (code.data.length + 1) code.data

/-- Substring test, as the JavaScript includes method. -/
def listContains (needle : List Char) : List Char → Bool
  | [] => (matchLit needle []).isSome
  | c :: cs => (matchLit needle (c :: cs)).isSome || listContains needle cs

/-- Response demultiplexer for the editor surface (PythonLab.tsx lines
150 to 170): scan for wrapper spans; if none, the text is returned
unchanged with no artifacts; otherwise extract from each span its payload
by the inner no-dotall match (spans whose inner match fails contribute
nothing), remove every __GRAPHS_START__ block from the text, and trim.
Returns (displayed text, ordered artifact payload list). -/
def demuxDisplay (f : String) : String × List String :=
  let spans := scanSpans f
  if spans.isEmpty then (f, [])
  else
    (jsTrim (removeGraphsBlocks f),
     spans.filterMap fun sp => (findWrapperPayload sp).map String.mk)

/-- The displayable stdout of a successful editor run before
demultiplexing: JavaScript or-else on line 148 replaces an empty stdout
by the literal placeholder. -/
def editorFormatted (stdout : String) : String :=
  if stdout = "" then "Success (no output)" else stdout

/-- The outbound execution request built by runCode (api wrapper):
code, stdin payload and optional notebook session id. -/
structure Request where
  code : String
  stdin : String
  notebook : Option String
deriving DecidableEq

/-- The per-surface state of the editor surface: the pieces of component
state that handleRun reads and writes (execution time and the random
memory figure are omitted; no claim mentions them). -/
structure EditorState where
  isExecuting : Bool
  waitingForInput : Bool
  userInput : String
  output : String
  graphs : List String
  currentGraphIndex : Nat
deriving DecidableEq

/-- A JavaScript error value as classified by the catch blocks:
code (for ECONNABORTED), message, and response data detail. -/
structure JsError where
  code : Option String
  message : Option String
  detail : Option String
deriving DecidableEq

/-- Outcome of a dispatched request: either a structured response
(success flag, stdout, stderr) or a thrown error (timeout, transport,
or anything else). -/
inductive RunOutcome where
  | result (success : Bool) (stdout : String) (stderr : String)
  | exn (e : JsError)
deriving DecidableEq

/-- Truthiness of an optional JavaScript string: present and non-empty. -/
def truthy : Option String → Bool
  | none => false
  | some s => !(s == "")

/-- The timeout classification of the editor catch block (line 179):
code ECONNABORTED or a message containing the word timeout. -/
def isTimeoutErr (e : JsError) : Bool :=
  e.code == some "ECONNABORTED" ||
    (match e.message with
     | some m => listContains "timeout".data m.data
     | none => false)

def timeoutMsgEditor : String :=
  "Execution timeout: Code took longer than 125 seconds.\nPlease optimize your code or reduce the workload."

/-- The editor error message classification (PythonLab.tsx lines 176 to
185): timeout diagnostic, else response detail, else message, else a
generic fallback; empty strings are falsy. -/
def jsErrorMsg (e : JsError) : String :=
  if isTimeoutErr e then timeoutMsgEditor
  else if truthy e.detail then e.detail.getD ""
  else if truthy e.message then e.message.getD ""
  else "Unknown error occurred"

/-- The message shown when the editor surface waits for input
(PythonLab.tsx line 130). -/
def inputRequiredMsg (n : Nat) : String :=
  "⏳ Your code needs " ++ toString n ++ " input" ++ (if n > 1 then "s" else "") ++
    ".\nEnter them below (one per line, or space-separated):\n"

/-- handleRun up to its await point (PythonLab.tsx lines 111 to 140):
no-op while executing; otherwise clear the graphs, count input call
sites, and either enter the waiting-for-input state (no request) or mark
the surface executing and dispatch the request without a notebook id. -/
def handleRunPre (s : EditorState) (code : String) : EditorState × Option Request :=
  if s.isExecuting then (s, none)
  else if 0 < countInputCalls code ∧ jsTrim s.userInput = "" then
    ({ s with graphs := [], currentGraphIndex := 0, waitingForInput := true,
              output := inputRequiredMsg (countInputCalls code) }, none)
  else
    ({ s with graphs := [], currentGraphIndex := 0, isExecuting := true,
              waitingForInput := false, output := "Executing...\n" },
      some { code := code, stdin := s.userInput, notebook := none })

/-- handleRun from its await point to the end (PythonLab.tsx lines 141
to 194): on success demultiplex the formatted stdout into displayed text
and artifacts; on a structured failure display the stderr; on a thrown
error display the classified message and drop the artifacts; the finally
block clears the executing and waiting flags in every case. -/
def handleRunPost (s : EditorState) (oc : RunOutcome) : EditorState :=
  let s1 : EditorState :=
    match oc with
    | RunOutcome.result true stdout _ =>
      let f := editorFormatted stdout
      let pr := demuxDisplay f
      { s with graphs := pr.2,
               currentGraphIndex := if (scanSpans f).isEmpty then s.currentGraphIndex else 0,
               output := pr.1,
               userInput := "" }
    | RunOutcome.result false _ stderr =>
      { s with output := "Error:\n" ++ stderr, userInput := "" }
    | RunOutcome.exn e =>
      { s with output := "Error:\n" ++ jsErrorMsg e, graphs := [] }
  { s1 with isExecuting := false, waitingForInput := false }

inductive CellType where
  | code
  | markdown
deriving DecidableEq

/-- A notebook cell (interface NotebookCell of PythonLab.tsx). -/
structure Cell where
  id : String
  type : CellType
  content : String
  output : Option String
  isExecuting : Bool
  isEditing : Bool
deriving DecidableEq

/-- What runNotebookCell did before its await point: nothing (cell not
found or markdown), cancelled at the input prompt, or dispatched a
request (withStdin records which of the two dispatch sites fired, since
their catch blocks differ). -/
inductive CellDispatch where
  | noCell
  | cancelled
  | dispatched (withStdin : Bool) (req : Request)
deriving DecidableEq

/-- Mark one cell as executing with the Running placeholder output, as
the setNotebookCells calls on lines 259 and 289. -/
def setCellRunning (cells : List Cell) (i : String) : List Cell :=
  cells.map fun c =>
    if c.id = i then { c with isExecuting := true, output := some "Running..." } else c

/-- runNotebookCell up to its await point (PythonLab.tsx lines 235 to
294): find the cell (no-op when absent or markdown — note there is no
in-flight guard on the cell), count input call sites; with input call
sites present, consult the prompt: cancellation records a message and
sends nothing, an answer dispatches with that stdin; otherwise dispatch
with empty stdin.  Every dispatched request carries the notebook id. -/
def runNotebookCellPre (nbId : String) (cells : List Cell) (i : String)
    (promptRes : Option String) : List Cell × CellDispatch :=
  match cells.find? (fun c => c.id == i) with
  | none => (cells, CellDispatch.noCell)
  | some cell =>
    if cell.type = CellType.markdown then (cells, CellDispatch.noCell)
    else if 0 < countInputCalls cell.content then
      match promptRes with
      | none =>
        (cells.map fun c =>
          if c.id = i then { c with output := some "Execution cancelled - input required" } else c,
         CellDispatch.cancelled)
      | some p =>
        (setCellRunning cells i,
         CellDispatch.dispatched true { code := cell.content, stdin := p, notebook := some nbId })
    else
      (setCellRunning cells i,
       CellDispatch.dispatched false { code := cell.content, stdin := "", notebook := some nbId })

def cellTimeoutMsg : String := "Execution timeout - code took too long to execute"

/-- The error message of the two catch blocks of runNotebookCell: the
with-stdin site (lines 272 to 284) classifies timeouts and falls back on
a generic message; the no-stdin site (lines 302 to 310) interpolates the
raw message field, which renders as the word undefined when absent. -/
def cellErrorMsg (withStdin : Bool) (e : JsError) : String :=
  if withStdin then
    if isTimeoutErr e then cellTimeoutMsg
    else if truthy e.message then e.message.getD ""
    else "Unknown error"
  else
    match e.message with
    | some m => m
    | none => "undefined"

/-- runNotebookCell from its await point to the end: write the outcome
into the cell output (raw stdout on success, ERROR plus stderr or the
classified message otherwise) and clear the executing flag of the cell,
in every branch. -/
def runNotebookCellPost (cells : List Cell) (i : String) (withStdin : Bool)
    (oc : RunOutcome) : List Cell :=
  let out :=
    match oc with
    | RunOutcome.result true stdout _ => stdout
    | RunOutcome.result false _ stderr => "ERROR:\n" ++ stderr
    | RunOutcome.exn e => "ERROR:\n" ++ cellErrorMsg withStdin e
  cells.map fun c =>
    if c.id = i then { c with isExecuting := false, output := some out } else c

/-- An observable event of a batch run: a dispatched request, or the
fixed settling pause of setTimeout (milliseconds). -/
inductive RunEvent where
  | dispatch (req : Request)
  | settle (ms : Nat)
deriving DecidableEq

/-- runAllCells (PythonLab.tsx lines 313 to 320): iterate the cells in
declared order; for each code-type cell run runNotebookCell to
completion (prompt answers and outcomes are supplied by environment
oracles keyed by cell id) and then pause 300 milliseconds; other cells
are skipped outright.  The returned event list records the dispatches
and pauses in order; the strictly sequential structure of the source
(each execution awaited before the next starts) is intrinsic to this
definition. -/
def runAllAux (nbId : String) (prompts : String → Option String)
    (outcomes : String → RunOutcome) : List Cell → List Cell → List Cell × List RunEvent
  | state, [] => (state, [])
  | state, cell :: rest =>
    if cell.type = CellType.code then
      match runNotebookCellPre nbId state cell.id (prompts cell.id) with
      | (state1, CellDispatch.dispatched w req) =>
        let state2 := runNotebookCellPost state1 cell.id w (outcomes cell.id)
        let next := runAllAux nbId prompts outcomes state2 rest
        (next.1, RunEvent.dispatch req :: RunEvent.settle 300 :: next.2)
      | (state1, _) =>
        let next := runAllAux nbId prompts outcomes state1 rest
        (next.1, RunEvent.settle 300 :: next.2)
    else
      runAllAux nbId prompts outcomes state rest

def runAllCells (nbId : String) (prompts : String → Option String)
    (outcomes : String → RunOutcome) (cells : List Cell) : List Cell × List RunEvent :=
  runAllAux nbId prompts outcomes cells cells

/-- Expected event trace of a batch run, written from the specification
of the Run Sequencer: one dispatch per code-type cell, carrying the cell
source with empty stdin and the notebook session id, in declared order,
each followed by the fixed settling delay; markdown cells contribute
nothing.  This is the claim-side description that runAllCells is
compared against. -/
def expectedRunAllEvents (nbId : String) : List Cell → List RunEvent
  | [] => []
  | c :: rest =>
    if c.type = CellType.code then
      RunEvent.dispatch { code := c.content, stdin := "", notebook := some nbId } ::
        RunEvent.settle 300 :: expectedRunAllEvents nbId rest
    else
      expectedRunAllEvents nbId rest

/-- Two cells agree on the fields that identify them and feed dispatch:
id, type and source content (output bookkeeping may differ). -/
def sameCore (c d : Cell) : Prop :=
  c.id = d.id ∧ c.type = d.type ∧ c.content = d.content

/- Concrete sample values used by witnesses and counterexamples. -/

/-- An idle editor surface. -/
def e0 : EditorState :=
  { isExecuting := false, waitingForInput := false, userInput := "", output := "",
    graphs := [], currentGraphIndex := 0 }

/-- An editor surface with a request in flight. -/
def eExec : EditorState := { e0 with isExecuting := true, output := "Executing...\n" }

/-- An idle code cell without input call sites. -/
def cellA : Cell :=
  { id := "1", type := CellType.code, content := "print(1)", output := none,
    isExecuting := false, isEditing := false }

/-- The same cell while its request is in flight. -/
def cellARunning : Cell :=
  { cellA with isExecuting := true, output := some "Running..." }

/-- A code cell whose source has one interactive-input call site. -/
def cellInput : Cell :=
  { id := "1", type := CellType.code, content := "x = input()", output := none,
    isExecuting := false, isEditing := false }

/-- The sample stdout of the demultiplexing round-trip claim, with one
well-formed sentinel-wrapped artifact. -/
def exStdout : String := "A\n__GRAPH_0__XYZ__GRAPH_END__\nB"

/-- The same artifact, additionally wrapped in the block sentinels that
the removal regex of line 164 actually targets. -/
def exStdoutBlocked : String :=
  "A\n__GRAPHS_START__\n__GRAPH_0__XYZ__GRAPH_END__\n__GRAPHS_END__\nB"

/-- The three-cell notebook of the Run Sequencer example: two code
cells around one markdown cell. -/
def cellsThree : List Cell :=
  [{ id := "1", type := CellType.code, content := "print(1)", output := none,
     isExecuting := false, isEditing := false },
   { id := "2", type := CellType.markdown, content := "# notes", output := none,
     isExecuting := false, isEditing := false },
   { id := "3", type := CellType.code, content := "print(3)", output := none,
     isExecuting := false, isEditing := false }]

/-- An outcome oracle that fails the first cell and succeeds elsewhere. -/
def failFirstOutcome : String → RunOutcome := fun i =>
  if i = "1" then RunOutcome.result false "" "boom" else RunOutcome.result true "ok" ""

/-- The sample cell after a thrown error with absent message on the
no-stdin dispatch site. -/
def cellAfterExn : Cell := { cellA with isExecuting := false, output := some "ERROR:\nundefined" }

/-- The sample cell after a successful run whose stdout contains a
sentinel-wrapped artifact. -/
def cellAfterRaw : Cell := { cellA with isExecuting := false, output := some exStdout }

/- Helper lemmas shared by the claim theorems. -/

/-- Appending to a fixed left string is injective, so unequal payloads
give unequal displayed messages. -/
theorem append_left_ne (p a b : String) (h : a ≠ b) : p ++ a ≠ p ++ b := by
  intro hc
  apply h
  have hd := congrArg String.data hc
  simp only [String.data_append] at hd
  exact String.ext (List.append_cancel_left hd)

/-- If the found cell is a code cell without input call sites, the cell
dispatch function sends a request built from the cell content with empty
stdin and the notebook id, and marks the cell running; the in-flight flag
of the cell plays no role. -/
theorem runNotebookCellPre_dispatches (nbId : String) {state : List Cell} {i : String}
    {c : Cell} (p : Option String)
    (hfind : state.find? (fun d => d.id == i) = some c)
    (hty : c.type = CellType.code) (hin : countInputCalls c.content = 0) :
    runNotebookCellPre nbId state i p =
      (setCellRunning state i,
       CellDispatch.dispatched false { code := c.content, stdin := "", notebook := some nbId }) := by
  simp [runNotebookCellPre, hfind, hty, hin]

/-- Mapping a function that keeps id, type and content over the left list
preserves the core agreement between the running state and the original
cell list. -/
theorem forall₂_map_update {f : Cell → Cell}
    (hf : ∀ c, (f c).id = c.id ∧ (f c).type = c.type ∧ (f c).content = c.content) :
    ∀ {xs ys : List Cell}, List.Forall₂ sameCore xs ys →
      List.Forall₂ sameCore (xs.map f) ys := by
  intro xs ys h
  induction h with
  | nil => exact List.Forall₂.nil
  | cons hxy _ ih =>
    exact List.Forall₂.cons
      ⟨(hf _).1.trans hxy.1, (hf _).2.1.trans hxy.2.1, (hf _).2.2.trans hxy.2.2⟩ ih

/-- A successful find in the original cell list transfers to the running
state when the two agree on core fields. -/
theorem find_of_forall₂ {xs ys : List Cell} (h : List.Forall₂ sameCore xs ys) :
    ∀ i b, ys.find? (fun c => c.id == i) = some b →
      ∃ a, xs.find? (fun c => c.id == i) = some a ∧ sameCore a b := by
  induction h with
  | nil => intro i b hb; simp at hb
  | @cons x y xs ys hxy _ ih =>
    intro i b hb
    by_cases hy : y.id = i
    · rw [List.find?_cons_of_pos _ (by simp [hy])] at hb
      cases hb
      exact ⟨x, List.find?_cons_of_pos _ (by simp [hxy.1, hy]), hxy⟩
    · rw [List.find?_cons_of_neg _ (by simp [hy])] at hb
      obtain ⟨a, ha, hab⟩ := ih i b hb
      exact ⟨a, by rw [List.find?_cons_of_neg _ (by simp [hxy.1, hy])]; exact ha, hab⟩

/-- With pairwise distinct ids, finding the id of a member returns that
member itself. -/
theorem find_self_of_nodup :
    ∀ (cells : List Cell), (cells.map Cell.id).Nodup →
      ∀ {c : Cell}, c ∈ cells → cells.find? (fun d => d.id == c.id) = some c := by
  intro cells
  induction cells with
  | nil => intro _ c hc; simp at hc
  | cons a l ih =>
    intro hnd c hc
    rw [List.map_cons, List.nodup_cons] at hnd
    rcases List.mem_cons.mp hc with rfl | hmem
    · exact List.find?_cons_of_pos _ (by simp)
    · rw [List.find?_cons_of_neg]
      · exact ih hnd.2 hmem
      · simp only [beq_iff_eq]
        intro he
        exact hnd.1 (he ▸ List.mem_map_of_mem Cell.id hmem)

/- Claim theorems. -/

/-- Claim C1, counterexample: on the sample stdout with one well-formed
sentinel-wrapped artifact, the demultiplexer does not remove the matched
span from the displayed text, so the cleaned text differs from the
claimed value, even though the artifact list is extracted as claimed. -/
theorem c1_cleaned_text_not_as_claimed :
    (demuxDisplay exStdout).1 ≠ "A\nB" ∧ (demuxDisplay exStdout).2 = ["XYZ"] := by
  decide

/-- Claim C1, amended: the demultiplexer extracts the payloads of the
matched wrapper spans as the ordered artifact list, but the text removal
targets only blocks delimited by the distinct sentinels __GRAPHS_START__
and __GRAPHS_END__ (then trims); the matched spans themselves stay in the
displayed text.  On the sample stdout the displayed text is therefore the
original text and the artifact list is XYZ; when the artifact is
additionally wrapped in the block sentinels, the whole block is removed
and the displayed text is A blank-line B. -/
theorem c1_demux_actual_behavior :
    demuxDisplay exStdout = (exStdout, ["XYZ"]) ∧
    demuxDisplay exStdoutBlocked = ("A\n\nB", ["XYZ"]) := by
  decide

/-- Claim C7: when the wrapper scan finds no well-formed sentinel
wrapper (no markers at all, or a begin marker with no matching end), the
demultiplexer returns the text verbatim with an empty artifact list, and
it is therefore idempotent on such text; being a total function, it
raises no error. -/
theorem c7_demux_unmatched_verbatim (s : String) (h : scanSpans s = []) :
    demuxDisplay s = (s, []) ∧ demuxDisplay (demuxDisplay s).1 = (s, []) := by
  have h1 : demuxDisplay s = (s, []) := by
    unfold demuxDisplay
    simp [h]
  exact ⟨h1, by rw [h1]; exact h1⟩

/-- Claim C7 witness: a begin marker with no matching end marker is left
verbatim with no artifacts, and demultiplexing again changes nothing. -/
theorem c7_demux_unmatched_verbatim_witness :
    demuxDisplay "A\n__GRAPH_0__XYZ" = ("A\n__GRAPH_0__XYZ", []) ∧
    demuxDisplay (demuxDisplay "A\n__GRAPH_0__XYZ").1 = ("A\n__GRAPH_0__XYZ", []) :=
  c7_demux_unmatched_verbatim "A\n__GRAPH_0__XYZ" (by decide)

/-- Claim C10: a successful editor run with empty stdout displays the
literal placeholder Success (no output) with no artifacts, and the
demultiplexer operates on that placeholder (which contains no sentinel
markers) rather than on the raw empty stdout. -/
theorem c10_empty_stdout_placeholder (s : EditorState) (stderr : String) :
    (handleRunPost s (RunOutcome.result true "" stderr)).output = "Success (no output)" ∧
    (handleRunPost s (RunOutcome.result true "" stderr)).graphs = [] ∧
    editorFormatted "" = "Success (no output)" ∧
    demuxDisplay (editorFormatted "") = ("Success (no output)", []) :=
  ⟨rfl, rfl, rfl, by decide⟩

/-- Claim C8, counterexample: a structured remote failure and a thrown
transport error whose payloads coincide produce the same displayed
message, so the three failure kinds are not pairwise distinguishable for
every failed attempt. -/
theorem c8_failure_display_collision :
    (handleRunPost e0 (RunOutcome.result false "" "Network Error")).output =
      (handleRunPost e0
        (RunOutcome.exn { code := none, message := some "Network Error", detail := none })).output := by
  decide

/-- Claim C8, amended: on the editor surface and on the with-stdin cell
dispatch site, the three failure kinds have fixed display formats — a
timeout shows a fixed diagnostic naming the timeout, a transport error
shows the underlying error message, a structured remote failure shows
the remote stderr, each behind an Error (editor) or ERROR (cell) line —
and those three displayed messages are pairwise distinct whenever the
transport message and the stderr differ from each other and from the
timeout diagnostic (equal payloads collide, as the counterexample
shows).  On the no-stdin cell dispatch site there is no timeout
classification at all: every thrown error, timeout included, displays
its raw message field verbatim, so there a timeout is indistinguishable
from a transport failure carrying the same message. -/
theorem c8_failure_displays (s : EditorState) (stderr m : String)
    (hm : listContains "timeout".data m.data = false) (hne : m ≠ "")
    (h1 : m ≠ stderr) (h2 : m ≠ timeoutMsgEditor) (h3 : stderr ≠ timeoutMsgEditor)
    (h4 : m ≠ cellTimeoutMsg) (h5 : stderr ≠ cellTimeoutMsg) :
    (handleRunPost s
        (RunOutcome.exn { code := some "ECONNABORTED", message := none, detail := none })).output
      = "Error:\n" ++ timeoutMsgEditor ∧
    (handleRunPost s
        (RunOutcome.exn { code := none, message := some m, detail := none })).output
      = "Error:\n" ++ m ∧
    (handleRunPost s (RunOutcome.result false "" stderr)).output = "Error:\n" ++ stderr ∧
    "Error:\n" ++ timeoutMsgEditor ≠ "Error:\n" ++ m ∧
    "Error:\n" ++ timeoutMsgEditor ≠ "Error:\n" ++ stderr ∧
    "Error:\n" ++ m ≠ "Error:\n" ++ stderr ∧
    (∀ (cells : List Cell) (i : String) (w : Bool) (e0 : JsError) (c : Cell),
      c ∈ runNotebookCellPost cells i w (RunOutcome.exn e0) → c.id = i →
        c.output = some ("ERROR:\n" ++ cellErrorMsg w e0)) ∧
    (∀ (cells : List Cell) (i : String) (w : Bool) (sout serr : String) (c : Cell),
      c ∈ runNotebookCellPost cells i w (RunOutcome.result false sout serr) → c.id = i →
        c.output = some ("ERROR:\n" ++ serr)) ∧
    cellErrorMsg true { code := some "ECONNABORTED", message := none, detail := none }
      = cellTimeoutMsg ∧
    cellErrorMsg true { code := none, message := some m, detail := none } = m ∧
    "ERROR:\n" ++ cellTimeoutMsg ≠ "ERROR:\n" ++ m ∧
    "ERROR:\n" ++ cellTimeoutMsg ≠ "ERROR:\n" ++ stderr ∧
    "ERROR:\n" ++ m ≠ "ERROR:\n" ++ stderr ∧
    (∀ mt : String,
      cellErrorMsg false { code := some "ECONNABORTED", message := some mt, detail := none } = mt ∧
      cellErrorMsg false { code := some "ECONNABORTED", message := some mt, detail := none } =
        cellErrorMsg false { code := none, message := some mt, detail := none }) := by
  have htr : jsErrorMsg { code := none, message := some m, detail := none } = m := by
    simp [jsErrorMsg, isTimeoutErr, truthy, hm, hne]
  have hcell : ∀ (cells : List Cell) (i : String) (w : Bool) (out : String) (c : Cell),
      c ∈ (cells.map fun c0 =>
        if c0.id = i then { c0 with isExecuting := false, output := some out } else c0) →
      c.id = i → c.output = some out := by
    intro cells i w out c hc hid
    obtain ⟨c0, -, rfl⟩ := List.mem_map.mp hc
    by_cases h : c0.id = i
    · simp [h]
    · rw [if_neg h] at hid
      exact absurd hid h
  refine ⟨rfl, ?_, rfl, ?_, ?_, ?_, ?_, ?_, rfl, ?_, ?_, ?_, ?_, fun mt => ⟨rfl, rfl⟩⟩
  · show "Error:\n" ++ jsErrorMsg { code := none, message := some m, detail := none }
        = "Error:\n" ++ m
    rw [htr]
  · exact append_left_ne _ _ _ fun hc => h2 hc.symm
  · exact append_left_ne _ _ _ fun hc => h3 hc.symm
  · exact append_left_ne _ _ _ h1
  · intro cells i w e0 c hc hid
    exact hcell cells i w _ c hc hid
  · intro cells i w sout serr c hc hid
    exact hcell cells i w _ c hc hid
  · simp [cellErrorMsg, isTimeoutErr, truthy, hm, hne]
  · exact append_left_ne _ _ _ fun hc => h4 hc.symm
  · exact append_left_ne _ _ _ fun hc => h5 hc.symm
  · exact append_left_ne _ _ _ h1

/-- Claim C8 witness: with distinct payloads the editor and with-stdin
cell displays are pairwise distinct per kind, while on the no-stdin
cell site a timeout error displays only its raw message. -/
theorem c8_failure_displays_witness :
    (handleRunPost e0
        (RunOutcome.exn { code := some "ECONNABORTED", message := none, detail := none })).output
      = "Error:\n" ++ timeoutMsgEditor ∧
    (handleRunPost e0
        (RunOutcome.exn { code := none, message := some "Network Error", detail := none })).output
      = "Error:\n" ++ "Network Error" ∧
    (handleRunPost e0 (RunOutcome.result false "" "NameError: name x is not defined")).output
      = "Error:\n" ++ "NameError: name x is not defined" ∧
    "Error:\n" ++ timeoutMsgEditor ≠ "Error:\n" ++ "Network Error" ∧
    cellErrorMsg true { code := some "ECONNABORTED", message := none, detail := none }
      = cellTimeoutMsg ∧
    "ERROR:\n" ++ cellTimeoutMsg ≠ "ERROR:\n" ++ "Network Error" ∧
    cellErrorMsg false
        { code := some "ECONNABORTED", message := some "timeout of 125000ms exceeded",
          detail := none }
      = "timeout of 125000ms exceeded" := by
  have H := c8_failure_displays e0 "NameError: name x is not defined" "Network Error"
    (by decide) (by decide) (by decide) (by decide) (by decide) (by decide) (by decide)
  exact ⟨H.1, H.2.1, H.2.2.1, H.2.2.2.1, H.2.2.2.2.2.2.2.2.1,
    H.2.2.2.2.2.2.2.2.2.2.1,
    (H.2.2.2.2.2.2.2.2.2.2.2.2.2 "timeout of 125000ms exceeded").1⟩

/-- Claim C2, counterexample: invoking the cell run function on a code
cell that is already executing is not a no-op — a second request is
dispatched, because the function checks only existence and cell type,
never the in-flight flag. -/
theorem c2_cell_redispatch_not_noop :
    cellARunning.isExecuting = true ∧
    (runNotebookCellPre "nb" [cellARunning] "1" none).2 =
      CellDispatch.dispatched false { code := "print(1)", stdin := "", notebook := some "nb" } := by
  decide

/-- Claim C2, amended: on the editor surface, invoking a run while the
surface is Executing is a no-op — the state is untouched and no request
is sent; the notebook-cell dispatch function, by contrast, performs no
in-flight check, so invoking it on a found code cell (executing or not)
dispatches a request; only the disabled state of the per-cell Run button
in the rendering layer prevents re-dispatch. -/
theorem c2_redispatch_guards (s : EditorState) (code : String) (nbId : String)
    (state : List Cell) (i : String) (p : Option String) (c : Cell)
    (hexec : s.isExecuting = true)
    (hfind : state.find? (fun d => d.id == i) = some c)
    (hty : c.type = CellType.code) (hin : countInputCalls c.content = 0) :
    handleRunPre s code = (s, none) ∧
    (runNotebookCellPre nbId state i p).2 =
      CellDispatch.dispatched false { code := c.content, stdin := "", notebook := some nbId } := by
  constructor
  · unfold handleRunPre
    rw [if_pos hexec]
  · rw [runNotebookCellPre_dispatches nbId p hfind hty hin]

/-- Claim C2 witness: a concrete executing editor surface is left
untouched, while a concrete executing code cell receives a second
dispatch. -/
theorem c2_redispatch_guards_witness :
    handleRunPre eExec "print(1)" = (eExec, none) ∧
    (runNotebookCellPre "nb" [cellARunning] "1" none).2 =
      CellDispatch.dispatched false
        { code := cellARunning.content, stdin := "", notebook := some "nb" } :=
  c2_redispatch_guards eExec "print(1)" "nb" [cellARunning] "1" none cellARunning
    rfl (by decide) rfl (by decide)

/-- Claim C3: a request built for the editor surface never carries a
notebook session id, and every request dispatched for a notebook cell
carries exactly the id of the owning notebook, on both dispatch sites,
so the id is identical across every cell of the notebook and across
repeated runs. -/
theorem c3_session_scoping (s : EditorState) (code : String) (nbId : String)
    (cells : List Cell) (i : String) (p : Option String) :
    (∀ req, (handleRunPre s code).2 = some req → req.notebook = none) ∧
    (∀ w req, (runNotebookCellPre nbId cells i p).2 = CellDispatch.dispatched w req →
      req.notebook = some nbId) := by
  constructor
  · intro req h
    unfold handleRunPre at h
    repeat' split at h
    all_goals simp_all
    rw [← h]
  · intro w req h
    unfold runNotebookCellPre at h
    repeat' split at h
    all_goals simp_all
    all_goals rw [← h.2]

/-- Claim C3 witness: a concrete editor request carries no notebook id
and a concrete cell request carries the notebook id. -/
theorem c3_session_scoping_witness :
    Request.notebook { code := "print(2)", stdin := "", notebook := none } = none ∧
    Request.notebook { code := "print(1)", stdin := "", notebook := some "nb" } = some "nb" :=
  ⟨(c3_session_scoping e0 "print(2)" "nb" [cellA] "1" none).1 _ (by decide),
   (c3_session_scoping e0 "print(2)" "nb" [cellA] "1" none).2 false _ (by decide)⟩

/-- Claim C4: on an idle editor surface, source text with at least one
interactive-input call site and no supplied input sends no request, puts
the surface in the waiting-for-input state and displays the message
stating how many inputs are required; source text with zero input call
sites dispatches immediately, whatever input is supplied. -/
theorem c4_input_gating (s : EditorState) (code : String) (hexec : s.isExecuting = false) :
    (0 < countInputCalls code → jsTrim s.userInput = "" →
      handleRunPre s code =
        ({ s with graphs := [], currentGraphIndex := 0, waitingForInput := true,
                  output := inputRequiredMsg (countInputCalls code) }, none)) ∧
    (countInputCalls code = 0 →
      (handleRunPre s code).2 = some { code := code, stdin := s.userInput, notebook := none }) := by
  constructor
  · intro h1 h2
    unfold handleRunPre
    rw [if_neg (by rw [hexec]; exact Bool.false_ne_true)]
    rw [if_pos ⟨h1, h2⟩]
  · intro h0
    unfold handleRunPre
    rw [if_neg (by rw [hexec]; exact Bool.false_ne_true)]
    rw [if_neg (by rw [h0]; rintro ⟨h, -⟩; exact Nat.lt_irrefl 0 h)]

/-- Claim C4 witness: one input call with no supplied input blocks
dispatch and shows the message; zero input calls dispatch at once. -/
theorem c4_input_gating_witness :
    handleRunPre e0 "x = input()" =
      ({ e0 with graphs := [], currentGraphIndex := 0, waitingForInput := true,
                 output := inputRequiredMsg (countInputCalls "x = input()") }, none) ∧
    (handleRunPre e0 "print(2)").2 =
      some { code := "print(2)", stdin := e0.userInput, notebook := none } :=
  ⟨(c4_input_gating e0 "x = input()" rfl).1 (by decide) (by decide),
   (c4_input_gating e0 "print(2)" rfl).2 (by decide)⟩

/-- Claim C6: for every outcome of a dispatched attempt — success,
structured remote failure, or any thrown error (timeout, transport or
other) — the editor surface leaves the Executing state, and the target
notebook cell has its executing flag cleared; no surface stays stuck in
Executing. -/
theorem c6_inflight_cleared (s : EditorState) (oc : RunOutcome)
    (cells : List Cell) (i : String) (w : Bool) (c : Cell) :
    (handleRunPost s oc).isExecuting = false ∧
    (c ∈ runNotebookCellPost cells i w oc → c.id = i → c.isExecuting = false) := by
  refine ⟨rfl, ?_⟩
  intro hc hid
  unfold runNotebookCellPost at hc
  obtain ⟨c0, -, rfl⟩ := List.mem_map.mp hc
  by_cases h : c0.id = i
  · simp [h]
  · rw [if_neg h] at hid
    exact absurd hid h

/-- Claim C6 witness: after a thrown error with no message, the editor
surface is not executing and the updated cell is not executing. -/
theorem c6_inflight_cleared_witness :
    (handleRunPost e0
        (RunOutcome.exn { code := none, message := none, detail := none })).isExecuting = false ∧
    cellAfterExn.isExecuting = false :=
  ⟨(c6_inflight_cleared e0 (RunOutcome.exn { code := none, message := none, detail := none })
      [cellA] "1" false cellAfterExn).1,
   (c6_inflight_cleared e0 (RunOutcome.exn { code := none, message := none, detail := none })
      [cellA] "1" false cellAfterExn).2 (by decide) (by decide)⟩

/-- Claim C9: after a successful notebook-cell execution the cell output
is the raw stdout verbatim, whatever it contains — in particular,
sentinel-wrapped artifacts inside a cell stdout are neither extracted
nor removed, since no demultiplexing is applied on the cell path. -/
theorem c9_cell_output_verbatim (cells : List Cell) (i : String) (w : Bool)
    (stdout stderr : String) (c : Cell)
    (hc : c ∈ runNotebookCellPost cells i w (RunOutcome.result true stdout stderr))
    (hid : c.id = i) : c.output = some stdout := by
  unfold runNotebookCellPost at hc
  obtain ⟨c0, -, rfl⟩ := List.mem_map.mp hc
  by_cases h : c0.id = i
  · simp [h]
  · rw [if_neg h] at hid
    exact absurd hid h

/-- Claim C9 witness: a cell whose stdout contains a sentinel-wrapped
artifact displays that stdout verbatim, wrapper included. -/
theorem c9_cell_output_verbatim_witness : cellAfterRaw.output = some exStdout :=
  c9_cell_output_verbatim [cellA] "1" false exStdout "" cellAfterRaw (by decide) (by decide)

/-- Claim C5, counterexample: a run-all over a notebook whose single
code cell contains an interactive-input call site dispatches no
execution at all when the prompt is cancelled — the trace holds only the
settling pause — so run-all does not execute one execution per code cell
for every notebook. -/
theorem c5_cancelled_prompt_skips_execution :
    cellInput.type = CellType.code ∧
    (runAllCells "nb" (fun _ => none) failFirstOutcome [cellInput]).2 =
      [RunEvent.settle 300] := by
  decide

/-- Claim C5, amended: for every notebook with pairwise distinct cell
ids whose code cells contain no interactive-input call sites, and for
every outcome of every dispatch (failures included), run-all produces
exactly the expected trace: one dispatch per code-type cell carrying
that cell source, strictly in declared order, each followed by the fixed
300 millisecond settling pause, with markdown cells skipped entirely;
since the trace is independent of the outcomes, a failing cell never
halts the sequence, and the strictly sequential awaited structure of
runAllCells rules out concurrency.  A code cell with input call sites
is executed only when its prompt is answered. -/
theorem c5_runAll_sequencer (nbId : String) (prompts : String → Option String)
    (outcomes : String → RunOutcome) (cells : List Cell)
    (hnd : (cells.map Cell.id).Nodup)
    (hin : ∀ c ∈ cells, c.type = CellType.code → countInputCalls c.content = 0) :
    (runAllCells nbId prompts outcomes cells).2 = expectedRunAllEvents nbId cells := by
  have main : ∀ iter : List Cell, (∀ c ∈ iter, c ∈ cells) →
      ∀ state : List Cell, List.Forall₂ sameCore state cells →
      (runAllAux nbId prompts outcomes state iter).2 = expectedRunAllEvents nbId iter := by
    intro iter
    induction iter with
    | nil => intro _ state _; rfl
    | cons cell rest ih =>
      intro hsub state hst
      have hrest : ∀ c ∈ rest, c ∈ cells := fun c hc => hsub c (List.mem_cons_of_mem _ hc)
      by_cases hty : cell.type = CellType.code
      · have hmem : cell ∈ cells := hsub cell (List.mem_cons_self _ _)
        obtain ⟨c, hfind, hcore⟩ :=
          find_of_forall₂ hst cell.id cell (find_self_of_nodup cells hnd hmem)
        have hpre := runNotebookCellPre_dispatches nbId (prompts cell.id) hfind
          (hcore.2.1.trans hty) (by rw [hcore.2.2]; exact hin cell hmem hty)
        have hst1 : List.Forall₂ sameCore (setCellRunning state cell.id) cells := by
          unfold setCellRunning
          exact forall₂_map_update
            (by intro c0; by_cases hc0 : c0.id = cell.id <;> simp [hc0]) hst
        have hst2 : List.Forall₂ sameCore
            (runNotebookCellPost (setCellRunning state cell.id) cell.id false
              (outcomes cell.id)) cells := by
          unfold runNotebookCellPost
          exact forall₂_map_update
            (by intro c0; by_cases hc0 : c0.id = cell.id <;> simp [hc0]) hst1
        simp only [runAllAux, expectedRunAllEvents, if_pos hty, hpre]
        rw [ih hrest _ hst2, hcore.2.2]
      · simp only [runAllAux, expectedRunAllEvents, if_neg hty]
        exact ih hrest state hst
  exact main cells (fun c hc => hc) cells
    (List.forall₂_same.mpr fun x _ => ⟨rfl, rfl, rfl⟩)

/-- Claim C5 witness: the three-cell notebook of the specification (two
code cells around one markdown cell), with the first code cell failing,
still yields exactly the expected two dispatches in order with the
settling pauses. -/
theorem c5_runAll_sequencer_witness :
    (runAllCells "nb" (fun _ => none) failFirstOutcome cellsThree).2 =
      expectedRunAllEvents "nb" cellsThree :=
  c5_runAll_sequencer "nb" (fun _ => none) failFirstOutcome cellsThree
    (by decide) (by decide)

end PythonLab
